import Mathlib

/-
Shallow embedding of spi-hub (src/spiHub.js), a broker that multiplexes SPI
buses between local IPC clients.  Buffers are modelled as List Nat of byte
values; Map objects as lists looked up by id (ids are unique, so replacing
the first match coincides with the Map semantics of the source); absent
JavaScript fields as Option or as the value 0 where the source only ever
tests truthiness.  The wiringPi full-duplex exchange is modelled by a
response oracle: the n-th SPI transaction of a service pass reads back the
byte buffer given by the oracle at index n.
-/

namespace SpiHub

/-! Constants from src/spiHub.js. -/

def DEFAULT_POLL_MSG_LENGTH : Nat := 40
def IPC_PROTO_VERSION : Nat := 2
def IPC_MESSAGE_TO_DEVICE_OVERHEAD : Nat := 4
def IPC_MESSAGE_FROM_DEVICE_OVERHEAD : Nat := 7
def IPC_MESSAGE_TO_DEVICE_PREAMBLE : Nat := 0xA3
def SPI_HUB_CMD_NONE : Nat := 0
def SPI_HUB_CMD_MSG_TO_DEVICE : Nat := 1
def SPI_HUB_CMD_MSG_FROM_DEVICE : Nat := 2
def SPI_MSG_TO_DEVICE_OVERHEAD : Nat := 6
def SPI_MSG_FROM_DEVICE_OVERHEAD : Nat := 9

/-! Byte-buffer primitives mirroring Node Buffer operations.  writeUInt8 /
writeUInt16LE store the low bytes (the source runs on the Node 6 Buffer
implementation, which masks with 0xff); a write past the end of the buffer
is a no-op, matching Buffer.copy truncation at the target end. -/

def writeU8 (buf : List Nat) (pos v : Nat) : List Nat :=
  buf.set pos (v % 256)

def writeU16LE (buf : List Nat) (pos v : Nat) : List Nat :=
  (buf.set pos (v % 256)).set (pos + 1) (v / 256 % 256)

def bufCopy (dst : List Nat) (pos : Nat) : List Nat → List Nat
  | [] => dst
  | b :: rest => bufCopy (dst.set pos b) (pos + 1) rest

/-! SPI frame codec. -/

/-- Error codes of decodeMessageFromDevice (errCode strings in the source). -/
inductive ErrCode where
  | MSG_TOO_SHORT
  | MESSAGE_TRUNCATED
deriving Repr, DecidableEq

/-- The object decodeMessageFromDevice returns: fields that may be absent on
the JavaScript object are Options. -/
structure DecodedMsg where
  deviceId : Option Nat
  queueCount : Option Nat
  nextMsgLen : Option Nat
  cmd : Option Nat
  channelId : Option Nat
  msgLen : Option Nat
  message : Option (List Nat)
  errCode : Option ErrCode
deriving Repr, DecidableEq

/-- decodeMessageFromDevice (src/spiHub.js lines 336-361): byte 0 is
skipped, the header fields live at offsets 1..8, and a declared payload
longer than the remaining bytes marks the record truncated. -/
def decodeMessageFromDevice (buf : List Nat) : DecodedMsg :=
  if buf.length < SPI_MSG_FROM_DEVICE_OVERHEAD then
    ⟨none, none, none, none, none, none, none, some ErrCode.MSG_TOO_SHORT⟩
  else
    let deviceId := buf.getD 1 0
    let queueCount := buf.getD 2 0
    let nextMsgLen := buf.getD 3 0 + 256 * buf.getD 4 0
    let cmd := buf.getD 5 0
    let channelId := buf.getD 6 0
    let msgLen := buf.getD 7 0 + 256 * buf.getD 8 0
    let rxMsgLen := buf.length - SPI_MSG_FROM_DEVICE_OVERHEAD
    if msgLen ≤ rxMsgLen then
      ⟨some deviceId, some queueCount, some nextMsgLen, some cmd, some channelId,
        some msgLen,
        if msgLen ≠ 0 then some ((buf.drop SPI_MSG_FROM_DEVICE_OVERHEAD).take msgLen)
        else none,
        none⟩
    else
      ⟨some deviceId, some queueCount, some nextMsgLen, some cmd, some channelId,
        some msgLen, none, some ErrCode.MESSAGE_TRUNCATED⟩

/-- The opts object passed to encodeMessageToDevice.  msgLen is the expected
response length; the source tests it for truthiness only, so the absent
field is modelled by 0.  channelId is likewise 0 when absent (the Node 6
Buffer write stores 0 for undefined). -/
structure EncodeOpts where
  deviceId : Nat
  nextDeviceId : Nat
  cmd : Nat
  channelId : Nat
  payload : Option (List Nat)
  msgLen : Nat
deriving Repr, DecidableEq

/-- encodeMessageToDevice (src/spiHub.js lines 320-334). -/
def encodeMessageToDevice (opts : EncodeOpts) : List Nat :=
  let msgLen := (opts.payload.map List.length).getD 0
  let txRequiredLen := msgLen + SPI_MSG_TO_DEVICE_OVERHEAD
  let rxRequiredLen := if opts.msgLen ≠ 0 then opts.msgLen + SPI_MSG_FROM_DEVICE_OVERHEAD else 0
  let buf := List.replicate (max txRequiredLen rxRequiredLen) 0
  let buf := writeU8 buf 0 opts.deviceId
  let buf := writeU8 buf 1 opts.nextDeviceId
  let buf := writeU8 buf 2 opts.cmd
  let buf := writeU8 buf 3 opts.channelId
  let buf := writeU16LE buf 4 msgLen
  match opts.payload with
  | some p => bufCopy buf SPI_MSG_TO_DEVICE_OVERHEAD p
  | none => buf

/-- The buffer of encodeMessageToDevice just before the payload copy: the
zero-filled allocation of length N with the four header bytes and the
little-endian payload length L written in.  Definitionally equal to the
write chain inside encodeMessageToDevice. -/
def encHeaderBuf (t n c ch L N : Nat) : List Nat :=
  writeU16LE (writeU8 (writeU8 (writeU8 (writeU8 (List.replicate N 0) 0 t) 1 n) 2 c) 3 ch) 4 L

/-! Data model: transmit-queue entries, devices, buses.  The opaque
deviceInfo object is not part of any claimed behavior and is omitted.
devicesMap always mirrors devicesArr in the source (it is rebuilt from the
array by the detection epilogue), so lookups by device id are modelled as
searches of devicesArr. -/

structure QueueEntry where
  msgDeDupeId : Nat
  deviceId : Nat
  channelId : Nat
  payload : List Nat
deriving Repr, DecidableEq

structure Device where
  id : Nat
  txQueue : List QueueEntry
  nextMsgLen : Option Nat
deriving Repr, DecidableEq

def dummyDevice : Device := ⟨0, [], none⟩

structure Bus where
  id : Nat
  devicesArr : List Device
  nextDeviceId : Nat
deriving Repr, DecidableEq

/-- The declared chain from DEVICES_ALL: ids 1..5 (one cm8 then four io16).
initSPIBus builds each device with an empty txQueue; nextDeviceId starts
absent, which compares unequal to every device id just as 0 does. -/
def initBus (busId : Nat) : Bus :=
  ⟨busId, [1, 2, 3, 4, 5].map (fun i => ⟨i, [], none⟩), 0⟩

/-- The transmit-queue insertion of onIPCMessage (src/spiHub.js lines
285-295): a non-zero dedupe id matching an existing entry overwrites that
entry's payload field only; otherwise the record is appended. -/
def enqueueTx (txQueue : List QueueEntry) (msgDeDupeId deviceId channelId : Nat)
    (payload : List Nat) : List QueueEntry :=
  let existMsgId : Option Nat :=
    if msgDeDupeId ≠ 0 then txQueue.findIdx? (fun q => q.msgDeDupeId == msgDeDupeId)
    else none
  match existMsgId with
  | some i =>
    match txQueue.get? i with
    | some e => txQueue.set i { e with payload := payload }
    | none => txQueue
  | none => txQueue ++ [⟨msgDeDupeId, deviceId, channelId, payload⟩]

/-- handleResponseFromDevice (src/spiHub.js lines 305-318): build the IPC
frame broadcast to every client.  Absent deviceId or channelId would be
written as 0 by the Node 6 Buffer. -/
def handleResponseFromDevice (busId : Nat) (response : DecodedMsg) : List Nat :=
  let msgLen := (response.message.map List.length).getD 0
  let buf := List.replicate (msgLen + IPC_MESSAGE_FROM_DEVICE_OVERHEAD) 0
  let buf := writeU8 buf 0 IPC_PROTO_VERSION
  let buf := writeU8 buf 1 SPI_HUB_CMD_MSG_FROM_DEVICE
  let buf := writeU8 buf 2 busId
  let buf := writeU8 buf 3 (response.deviceId.getD 0)
  let buf := writeU8 buf 4 (response.channelId.getD 0)
  let buf := writeU16LE buf 5 0
  match response.message with
  | some m => bufCopy buf IPC_MESSAGE_FROM_DEVICE_OVERHEAD m
  | none => buf

/-! The bus service pass (serviceBus, src/spiHub.js lines 113-189).  The
pass is deterministic once the devices on the wire are fixed; they are
modelled by an oracle giving the read-back buffer of the n-th SPI
transaction of the pass.  The trace of issued requests is recorded: a
selection request is the one issued by the select-the-device branch. -/

structure TraceTxn where
  opts : EncodeOpts
  isSelection : Bool
deriving Repr, DecidableEq

def selectionOpts (nextId : Nat) : EncodeOpts :=
  ⟨0, nextId, SPI_HUB_CMD_NONE, 0, none, 0⟩

structure PassSt where
  devicesArr : List Device
  nextDeviceId : Nat
  txnIdx : Nat
  txns : List TraceTxn
  broadcasts : List (List Nat)
  detected : List Nat
deriving Repr, DecidableEq

/-- One iteration of the inner do-while of serviceBus: pop already applied
(txMessage is the popped head, queueAfter the remaining queue), issue the
data request, decode the response, update nextMsgLen, broadcast and record
detection on a clean matching decode, and advance nextDeviceId. -/
def devIter (oracle : Nat → List Nat) (detect : Bool) (busId devId deviceIdx : Nat)
    (txMessage : Option QueueEntry) (queueAfter : List QueueEntry)
    (nml : Option Nat) (st : PassSt) : Option Nat × PassSt :=
  let nextDeviceIdx0 := if queueAfter.length ≠ 0 then deviceIdx else deviceIdx + 1
  let nextDeviceIdx := if st.devicesArr.length ≤ nextDeviceIdx0 then 0 else nextDeviceIdx0
  let nextDevice := st.devicesArr.getD nextDeviceIdx dummyDevice
  let opts : EncodeOpts :=
    ⟨devId, nextDevice.id,
      if txMessage.isSome then SPI_HUB_CMD_MSG_TO_DEVICE else SPI_HUB_CMD_NONE,
      (txMessage.map QueueEntry.channelId).getD 0,
      txMessage.map QueueEntry.payload,
      match nml with
      | some v => if v = 0 then DEFAULT_POLL_MSG_LENGTH else v
      | none => DEFAULT_POLL_MSG_LENGTH⟩
  let response := decodeMessageFromDevice (oracle st.txnIdx)
  let deviceMatches : Bool := response.deviceId == some devId
  let clean : Bool := response.errCode == none
  let nml' := if deviceMatches then response.nextMsgLen else none
  (nml',
    { devicesArr := st.devicesArr
      nextDeviceId := nextDevice.id
      txnIdx := st.txnIdx + 1
      txns := st.txns ++ [⟨opts, false⟩]
      broadcasts :=
        if clean && deviceMatches then
          st.broadcasts ++ [handleResponseFromDevice busId response]
        else st.broadcasts
      detected :=
        if clean && deviceMatches && detect then st.detected ++ [devId]
        else st.detected })

/-- The inner do-while of serviceBus, recursing on the transmit queue: the
loop repeats exactly while the queue left after the pop is non-empty. -/
def devLoop (oracle : Nat → List Nat) (detect : Bool) (busId devId deviceIdx : Nat) :
    List QueueEntry → Option Nat → PassSt → Option Nat × PassSt
  | [], nml, st => devIter oracle detect busId devId deviceIdx none [] nml st
  | m :: rest, nml, st =>
    match rest with
    | [] => devIter oracle detect busId devId deviceIdx (some m) [] nml st
    | r1 :: rs =>
      let p := devIter oracle detect busId devId deviceIdx (some m) (r1 :: rs) nml st
      devLoop oracle detect busId devId deviceIdx (r1 :: rs) p.1 p.2

/-- The body of the outer for-loop of serviceBus for one device: the
select-the-device branch (issue a selection request when nextDeviceId does
not already name this device), then the inner do-while, then the write-back
of the device with its drained queue and updated nextMsgLen. -/
def busStep (oracle : Nat → List Nat) (detect : Bool) (busId deviceIdx : Nat)
    (st : PassSt) : PassSt :=
  let device := st.devicesArr.getD deviceIdx dummyDevice
  let st1 :=
    if st.nextDeviceId ≠ device.id then
      { st with txnIdx := st.txnIdx + 1,
                txns := st.txns ++ [⟨selectionOpts device.id, true⟩] }
    else st
  let p := devLoop oracle detect busId device.id deviceIdx device.txQueue device.nextMsgLen st1
  { p.2 with
    devicesArr := (p.2).devicesArr.set deviceIdx { device with txQueue := [], nextMsgLen := p.1 } }

/-- The outer for-loop of serviceBus over devicesArr.  The fuel argument is
the array length at entry (the loop body preserves the length, so the loop
visits exactly the indices 0 ≤ deviceIdx < devicesArr.length). -/
def busLoop (oracle : Nat → List Nat) (detect : Bool) (busId : Nat) :
    Nat → Nat → PassSt → PassSt
  | 0, _, st => st
  | fuel + 1, deviceIdx, st =>
    if deviceIdx < st.devicesArr.length then
      busLoop oracle detect busId fuel (deviceIdx + 1) (busStep oracle detect busId deviceIdx st)
    else st

structure PassResult where
  bus : Bus
  txns : List TraceTxn
  broadcasts : List (List Nat)
deriving Repr, DecidableEq

/-- serviceBus: one service pass over a bus.  In detection mode the
epilogue keeps only the devices that produced a clean matching response
(and rebuilds devicesMap from the filtered array). -/
def serviceBus (oracle : Nat → List Nat) (detect : Bool) (bus : Bus) : PassResult :=
  let st0 : PassSt := ⟨bus.devicesArr, bus.nextDeviceId, 0, [], [], []⟩
  let st := busLoop oracle detect bus.id bus.devicesArr.length 0 st0
  let devicesArr' :=
    if detect then st.devicesArr.filter (fun d => st.detected.contains d.id)
    else st.devicesArr
  ⟨⟨bus.id, devicesArr', st.nextDeviceId⟩, st.txns, st.broadcasts⟩

/-! The coalescing service wrapper (serviceBuses, src/spiHub.js lines
88-111).  One do-while iteration services every bus; what matters to the
wrapper is whether the iteration raised and whether some caller set the
repeat flag while it ran.  Both are supplied by an oracle: iter k is
Except.ok rep when iteration k completes with the repeat flag equal to rep,
and Except.error rep when a service pass of iteration k raised. -/

inductive SvcErr where
  | sanity
  | passErr
deriving Repr, DecidableEq

structure SvcFlags where
  inProgress : Bool
  repeatFlag : Bool
deriving Repr, DecidableEq

/-- The do-while of serviceBuses with its sanity counter: the counter is
pre-decremented, so the iteration that would bring it to 0 raises instead
of running.  Returns the repeat flag at exit and either the number of
iterations run or the error. -/
def serviceLoopAux (iter : Nat → Except Bool Bool) (k : Nat) :
    Nat → Bool × Except SvcErr Nat
  | 0 => (false, Except.error SvcErr.sanity)
  | s + 1 =>
    if s = 0 then (false, Except.error SvcErr.sanity)
    else
      match iter k with
      | Except.error rep => (rep, Except.error SvcErr.passErr)
      | Except.ok rep =>
        if rep then serviceLoopAux iter (k + 1) s
        else (false, Except.ok (k + 1))

/-- serviceBuses: early-return when already in progress (setting the repeat
flag unless the request is a poll), otherwise run the guarded loop; the
finally clause clears inProgress on every exit path.  The second component
is none on the early return and otherwise the loop outcome. -/
def serviceBuses (iter : Nat → Except Bool Bool) (isPoll : Bool) (st : SvcFlags) :
    SvcFlags × Option (Except SvcErr Nat) :=
  if st.inProgress then
    ({ st with repeatFlag := st.repeatFlag || !isPoll }, none)
  else
    let r := serviceLoopAux iter 0 10
    (⟨false, r.1⟩, some r.2)

/-- What becomes of the broker when onIPCMessage invokes serviceBuses
(src/spiHub.js lines 298-299): the rejection is caught and logged. -/
inductive CallerOutcome where
  | continueOk
  | continueLogged
  | fatal
deriving Repr, DecidableEq

def onIPCServiceCall (iter : Nat → Except Bool Bool) (st : SvcFlags) : CallerOutcome :=
  match (serviceBuses iter false st).2 with
  | some (Except.error _) => CallerOutcome.continueLogged
  | _ => CallerOutcome.continueOk

/-! The inbound IPC frame handler (onIPCMessage, src/spiHub.js lines
252-303).  Buffer reads past the end throw in Node, aborting the frame;
they are modelled as Except.  Buffer.copy into the freshly allocated
payload clamps at the source end, leaving the zero fill. -/

def readU8 (msg : List Nat) (pos : Nat) : Except Unit Nat :=
  match msg.get? pos with
  | some v => Except.ok v
  | none => Except.error ()

def readU16LE (msg : List Nat) (pos : Nat) : Except Unit Nat := do
  let lo ← readU8 msg pos
  let hi ← readU8 msg (pos + 1)
  return lo + 256 * hi

def findBus (buses : List Bus) (busId : Nat) : Option Bus :=
  buses.find? (fun b => b.id == busId)

def replaceBusById (buses : List Bus) (busId : Nat) (bus' : Bus) : List Bus :=
  buses.map (fun b => if b.id == busId then bus' else b)

def replaceDeviceById (arr : List Device) (deviceId : Nat) (device' : Device) : List Device :=
  arr.map (fun d => if d.id == deviceId then device' else d)

/-- One sub-record of a command-1 frame: validate the preamble, read the
ids and the payload, resolve bus and device, and enqueue.  Any failure
raises without touching the state; success returns the updated buses and
the position after the sub-record. -/
def ipcSubRecordStep (msg : List Nat) (pos : Nat) (buses : List Bus) :
    Except Unit (List Bus × Nat) := do
  let preamble ← readU8 msg pos
  if preamble ≠ IPC_MESSAGE_TO_DEVICE_PREAMBLE then throw () else
  let busId ← readU8 msg (pos + 1)
  let deviceId ← readU8 msg (pos + 2)
  let channelId ← readU8 msg (pos + 3)
  let msgDeDupeId ← readU16LE msg (pos + 4)
  let payloadLen ← readU16LE msg (pos + 6)
  let payload :=
    (msg.drop (pos + 8)).take payloadLen ++
      List.replicate (payloadLen - (msg.length - (pos + 8))) 0
  match findBus buses busId with
  | none => throw ()
  | some bus =>
    match bus.devicesArr.find? (fun d => d.id == deviceId) with
    | none => throw ()
    | some device =>
      let device' := { device with
        txQueue := enqueueTx device.txQueue msgDeDupeId deviceId channelId payload }
      let bus' := { bus with devicesArr := replaceDeviceById bus.devicesArr deviceId device' }
      return (replaceBusById buses busId bus', pos + 8 + payloadLen)

/-- The for-loop over the declared count of sub-records: a failing
sub-record aborts the rest of the frame, and the error carries the buses as
already mutated by the preceding sub-records. -/
def processSubRecords : Nat → List Nat → Nat → List Bus → Except (List Bus) (List Bus)
  | 0, _, _, buses => Except.ok buses
  | n + 1, msg, pos, buses =>
    match ipcSubRecordStep msg pos buses with
    | Except.error _ => Except.error buses
    | Except.ok (buses', pos') => processSubRecords n msg pos' buses'

/-- The first i sub-records processed in order, with the position and buses
after them. -/
def ipcStepN (msg : List Nat) : Nat → Nat → List Bus → Except Unit (List Bus × Nat)
  | 0, pos, buses => Except.ok (buses, pos)
  | i + 1, pos, buses => do
    let r ← ipcSubRecordStep msg pos buses
    ipcStepN msg i r.2 r.1

structure IpcResult where
  buses : List Bus
  serviceCalled : Bool
  errorLogged : Bool
deriving Repr, DecidableEq

def isOkE (e : Except (List Bus) (List Bus)) : Bool :=
  match e with
  | Except.ok _ => true
  | Except.error _ => false

/-- onIPCMessage: header validation, the sub-record loop, and only then the
serviceBuses call; every raise lands in the catch clause, which logs and
returns without signalling the service loop. -/
def onIPCMessage (msg : List Nat) (buses : List Bus) : IpcResult :=
  if msg.length < IPC_MESSAGE_TO_DEVICE_OVERHEAD then ⟨buses, false, true⟩
  else
    let version := msg.getD 0 0
    let cmd := msg.getD 1 0
    let len := msg.getD 2 0 + 256 * msg.getD 3 0
    if version ≠ IPC_PROTO_VERSION then ⟨buses, false, true⟩
    else if cmd ≠ SPI_HUB_CMD_MSG_TO_DEVICE then ⟨buses, false, true⟩
    else
      match processSubRecords len msg 4 buses with
      | Except.ok buses' => ⟨buses', true, false⟩
      | Except.error buses' => ⟨buses', false, true⟩

/-! Specification-side predicate and concrete scenarios used to settle the
claims. -/

/-- The spec invariant on a bus: nextDeviceId is 0 or the id of a device
currently in devicesArr. -/
def nextDevInv (b : Bus) : Prop :=
  b.nextDeviceId = 0 ∨ b.nextDeviceId ∈ b.devicesArr.map Device.id

/-- Same invariant on the running pass state. -/
def nextDevInvSt (st : PassSt) : Prop :=
  st.nextDeviceId = 0 ∨ st.nextDeviceId ∈ st.devicesArr.map Device.id

/-- A bus with the chain [1, 2], all queues empty, no device primed. -/
def bus3 : Bus := ⟨0, [⟨1, [], none⟩, ⟨2, [], none⟩], 0⟩

/-- A clean response of device 1: id 1, cmd none, empty payload, advertised
next length 40. -/
def respD1 : List Nat := [0, 1, 0, 40, 0, 0, 0, 0, 0]

/-- The same clean response from device 2. -/
def respD2 : List Nat := [0, 2, 0, 40, 0, 0, 0, 0, 0]

/-- Wire behavior of the selection-only poll scenario: transaction 0 is the
selection exchange (its read-back is ignored), transactions 1 and 2 return
the clean responses of devices 1 and 2. -/
def oracle3 : Nat → List Nat :=
  fun n => if n = 1 then respD1 else if n = 2 then respD2 else []

/-- Wire behavior where only device 2 answers: every other read-back is an
all-zero buffer, which decodes cleanly but with device id 0. -/
def oracle4 : Nat → List Nat :=
  fun n => if n = 2 then respD2 else List.replicate 9 0

/-- A single-device bus, already primed for device 1. -/
def bus2 : Bus := ⟨5, [⟨1, [], none⟩], 1⟩

/-- Device 1 always answers cleanly with cmd none and an empty payload. -/
def oracle2 : Nat → List Nat := fun _ => respD1

/-- One bus (id 0) carrying devices 1 and 2 with empty queues. -/
def buses0 : List Bus := [⟨0, [⟨1, [], none⟩, ⟨2, [], none⟩], 0⟩]

/-- A version-2 command-1 frame with count = 3: sub-record 1 valid (device
1, channel 5, payload [97]), sub-record 2 with preamble 0x00, sub-record 3
valid (device 2). -/
def frame6 : List Nat :=
  [2, 1, 3, 0] ++
    [0xA3, 0, 1, 5, 0, 0, 1, 0, 97] ++
    [0x00, 0, 2, 6, 0, 0, 0, 0] ++
    [0xA3, 0, 2, 6, 0, 0, 0, 0]

/-- The buses after sub-record 1 of frame6 is enqueued. -/
def buses6after : List Bus :=
  [⟨0, [⟨1, [⟨0, 1, 5, [97]⟩], none⟩, ⟨2, [], none⟩], 0⟩]

/-- A count-2 frame whose first sub-record is valid (device 1, channel 3,
empty payload) and whose second has a bad preamble. -/
def frame7 : List Nat :=
  [2, 1, 2, 0] ++
    [0xA3, 0, 1, 3, 0, 0, 0, 0] ++
    [0x00, 0, 2, 3, 0, 0, 0, 0]

/-- A fully valid count-1 frame (device 1, channel 3, empty payload). -/
def frame7good : List Nat := [2, 1, 1, 0] ++ [0xA3, 0, 1, 3, 0, 0, 0, 0]

/-! Theorems. -/

/-- Claim C1, counterexample: enqueuing (7, channel 5, [10]) then
(7, channel 6, [20]) into an empty queue leaves the entry with channel 5,
not channel 6 as the claim asserts. -/
theorem C1_counterexample :
    (enqueueTx (enqueueTx [] 7 1 5 [10]) 7 1 6 [20]).map QueueEntry.channelId = [5] ∧
    ¬ (enqueueTx (enqueueTx [] 7 1 5 [10]) 7 1 6 [20]).map QueueEntry.channelId = [6] := by
  decide

/-- Claim C1, amended: a non-zero dedupe id matching an existing entry
replaces only that entry's payload in place (its channel id, dedupe id and
queue position are preserved, as is the queue length); otherwise the record
is appended.  Enqueuing (d, c1, p1) then (d, c2, p2) with the same non-zero
d into an empty queue yields one entry with channel c1 and payload p2. -/
theorem C1_amended :
    (∀ (q : List QueueEntry) (d dev c : Nat) (p : List Nat) (i : Nat) (e : QueueEntry),
      d ≠ 0 →
      q.findIdx? (fun x => x.msgDeDupeId == d) = some i →
      q.get? i = some e →
      enqueueTx q d dev c p = q.set i { e with payload := p }) ∧
    (∀ (q : List QueueEntry) (d dev c : Nat) (p : List Nat),
      d = 0 ∨ q.findIdx? (fun x => x.msgDeDupeId == d) = none →
      enqueueTx q d dev c p = q ++ [⟨d, dev, c, p⟩]) ∧
    (∀ (d dev1 dev2 c1 c2 : Nat) (p1 p2 : List Nat),
      d ≠ 0 →
      enqueueTx (enqueueTx [] d dev1 c1 p1) d dev2 c2 p2 = [⟨d, dev1, c1, p2⟩]) := by
  refine ⟨?_, ?_, ?_⟩
  · intro q d dev c p i e hd hfind hget
    have hget2 : q[i]? = some e := by simpa [← List.get?_eq_getElem?] using hget
    simp [enqueueTx, hd, hfind, hget2]
  · intro q d dev c p h
    rcases h with h | h
    · simp [enqueueTx, h]
    · by_cases hd : d = 0
      · simp [enqueueTx, hd]
      · simp [enqueueTx, hd, h]
  · intro d dev1 dev2 c1 c2 p1 p2 hd
    have h1 : enqueueTx [] d dev1 c1 p1 = [⟨d, dev1, c1, p1⟩] := by
      simp [enqueueTx, hd]
    rw [h1]
    simp [enqueueTx, hd, List.findIdx?_cons]

/-- Witness for C1_amended at concrete inputs. -/
theorem C1_amended_witness :
    enqueueTx [⟨3, 9, 4, [5]⟩] 3 8 7 [6] = [⟨3, 9, 4, [6]⟩] := by
  have h := C1_amended.1 [⟨3, 9, 4, [5]⟩] 3 8 7 [6] 0 ⟨3, 9, 4, [5]⟩
    (by decide) (by decide) (by decide)
  simpa using h

/-- Claim C2, counterexample: on a single-device bus, a clean matching
response whose command is none and whose payload is empty is nevertheless
handed to the IPC broadcaster (as a zero-payload frame). -/
theorem C2_counterexample :
    (serviceBus oracle2 false bus2).broadcasts = [[2, 2, 5, 1, 0, 0, 0]] ∧
    (decodeMessageFromDevice (oracle2 0)).errCode = none ∧
    (decodeMessageFromDevice (oracle2 0)).deviceId = some 1 ∧
    (decodeMessageFromDevice (oracle2 0)).cmd = some SPI_HUB_CMD_NONE ∧
    (decodeMessageFromDevice (oracle2 0)).message = none := by
  decide

/-- Claim C2, amended: a transaction's response is handed to the IPC
broadcaster exactly when it decodes cleanly and its device id matches the
targeted device, regardless of its command field and of whether the payload
is empty. -/
theorem C2_amended (oracle : Nat → List Nat) (detect : Bool)
    (busId devId deviceIdx : Nat) (txMessage : Option QueueEntry)
    (queueAfter : List QueueEntry) (nml : Option Nat) (st : PassSt) :
    ((devIter oracle detect busId devId deviceIdx txMessage queueAfter nml st).2).broadcasts
      = st.broadcasts ++
        (if (decodeMessageFromDevice (oracle st.txnIdx)).errCode = none ∧
            (decodeMessageFromDevice (oracle st.txnIdx)).deviceId = some devId then
          [handleResponseFromDevice busId (decodeMessageFromDevice (oracle st.txnIdx))]
        else []) := by
  by_cases h : (decodeMessageFromDevice (oracle st.txnIdx)).errCode = none ∧
      (decodeMessageFromDevice (oracle st.txnIdx)).deviceId = some devId
  · simp [devIter, h, h.1, h.2]
  · rw [if_neg h]
    rcases not_and_or.mp h with h1 | h1 <;> simp [devIter, h1]

/-- Claim C3, counterexample: the selection-only poll over the chain [1, 2]
performs one selection transaction, not the two the claim asserts (and three
transactions in all, not four): after the data transaction to device 1 names
device 2 as next, device 2 needs no selection. -/
theorem C3_counterexample :
    ((serviceBus oracle3 false bus3).txns.countP (fun t => t.isSelection)) = 1 ∧
    ¬ ((serviceBus oracle3 false bus3).txns.countP (fun t => t.isSelection)) = 2 ∧
    (serviceBus oracle3 false bus3).txns.length = 3 := by
  decide

/-- Claim C3, amended: the selection-only poll performs exactly one
selection transaction (target 0 priming device 1) plus two data
transactions (target 1 naming next 2, then target 2 naming next 1), and
ends with nextDeviceId = 1. -/
theorem C3_amended :
    serviceBus oracle3 false bus3 =
      ⟨⟨0, [⟨1, [], some 40⟩, ⟨2, [], some 40⟩], 1⟩,
        [⟨selectionOpts 1, true⟩,
          ⟨⟨1, 2, SPI_HUB_CMD_NONE, 0, none, 40⟩, false⟩,
          ⟨⟨2, 1, SPI_HUB_CMD_NONE, 0, none, 40⟩, false⟩],
        [[2, 2, 0, 1, 0, 0, 0], [2, 2, 0, 2, 0, 0, 0]]⟩ := by
  decide

/-! Helper lemmas for the nextDeviceId invariant (claim C4). -/

theorem devIter_devicesArr (oracle : Nat → List Nat) (detect : Bool)
    (busId devId deviceIdx : Nat) (txMessage : Option QueueEntry)
    (queueAfter : List QueueEntry) (nml : Option Nat) (st : PassSt) :
    ((devIter oracle detect busId devId deviceIdx txMessage queueAfter nml st).2).devicesArr
      = st.devicesArr := by
  simp [devIter]

theorem devLoop_devicesArr (oracle : Nat → List Nat) (detect : Bool)
    (busId devId deviceIdx : Nat) :
    ∀ (q : List QueueEntry) (nml : Option Nat) (st : PassSt),
      ((devLoop oracle detect busId devId deviceIdx q nml st).2).devicesArr = st.devicesArr
  | [], nml, st => devIter_devicesArr ..
  | [m], nml, st => devIter_devicesArr ..
  | m :: r1 :: rs, nml, st => by
    rw [devLoop]
    rw [devLoop_devicesArr oracle detect busId devId deviceIdx (r1 :: rs)]
    exact devIter_devicesArr ..

/-- The id read at any position of a device list is 0 (the dummy, on an
out-of-range read) or the id of a member of the list. -/
theorem getD_id_inv (l : List Device) (j : Nat) :
    (l.getD j dummyDevice).id = 0 ∨ (l.getD j dummyDevice).id ∈ l.map Device.id := by
  by_cases hj : j < l.length
  · right
    have hmem : l.getD j dummyDevice ∈ l := by
      rw [List.getD_eq_getElem l dummyDevice hj]
      exact List.getElem_mem ..
    exact List.mem_map_of_mem Device.id hmem
  · left
    rw [List.getD_eq_default l dummyDevice (Nat.le_of_not_lt hj)]
    rfl

/-- The transaction step always sets nextDeviceId to the id of a device of
the (unchanged) array, or to 0 when the array is empty. -/
theorem devIter_inv (oracle : Nat → List Nat) (detect : Bool)
    (busId devId deviceIdx : Nat) (txMessage : Option QueueEntry)
    (queueAfter : List QueueEntry) (nml : Option Nat) (st : PassSt) :
    nextDevInvSt ((devIter oracle detect busId devId deviceIdx txMessage queueAfter nml st).2) := by
  unfold nextDevInvSt
  simp only [devIter]
  exact getD_id_inv st.devicesArr _

theorem devLoop_inv (oracle : Nat → List Nat) (detect : Bool)
    (busId devId deviceIdx : Nat) :
    ∀ (q : List QueueEntry) (nml : Option Nat) (st : PassSt),
      nextDevInvSt ((devLoop oracle detect busId devId deviceIdx q nml st).2)
  | [], nml, st => devIter_inv ..
  | [m], nml, st => devIter_inv ..
  | m :: r1 :: rs, nml, st => by
    rw [devLoop]
    exact devLoop_inv oracle detect busId devId deviceIdx (r1 :: rs) ..

/-- Replacing an element by one with the same id leaves the id list
unchanged. -/
theorem map_id_set (l : List Device) (i : Nat) (dev : Device)
    (h : dev.id = (l.getD i dummyDevice).id) :
    (l.set i dev).map Device.id = l.map Device.id := by
  induction l generalizing i with
  | nil => simp
  | cons a t ih =>
    cases i with
    | zero => simp_all [List.getD]
    | succ n =>
      simp only [List.set, List.map_cons, List.cons.injEq, eq_self_iff_true, true_and]
      exact ih n (by simpa [List.getD] using h)

/-- Replacing a device of the array by one with the same id preserves the
invariant. -/
theorem set_preserves_inv (st : PassSt) (i : Nat) (dev : Device)
    (hid : dev.id = (st.devicesArr.getD i dummyDevice).id)
    (h : nextDevInvSt st) :
    nextDevInvSt { st with devicesArr := st.devicesArr.set i dev } := by
  rcases h with h | h
  · left; exact h
  · right
    show st.nextDeviceId ∈ (st.devicesArr.set i dev).map Device.id
    rw [map_id_set st.devicesArr i dev hid]
    exact h

/-- The per-device body re-establishes the invariant. -/
theorem busStep_inv (oracle : Nat → List Nat) (detect : Bool)
    (busId deviceIdx : Nat) (st : PassSt) :
    nextDevInvSt (busStep oracle detect busId deviceIdx st) := by
  unfold busStep
  apply set_preserves_inv
  · rw [devLoop_devicesArr]
    split <;> rfl
  · exact devLoop_inv ..

theorem busLoop_inv (oracle : Nat → List Nat) (detect : Bool) (busId : Nat) :
    ∀ (fuel deviceIdx : Nat) (st : PassSt),
      nextDevInvSt st → nextDevInvSt (busLoop oracle detect busId fuel deviceIdx st)
  | 0, _, st, h => h
  | fuel + 1, deviceIdx, st, h => by
    rw [busLoop]
    split
    · exact busLoop_inv oracle detect busId fuel (deviceIdx + 1) _
        (busStep_inv oracle detect busId deviceIdx st)
    · exact h

/-- Claim C4, counterexample: a detection pass over the chain [1, 2] in
which only device 2 answers ends with nextDeviceId = 1 while the pruned
devicesArr holds only device 2, violating the invariant. -/
theorem C4_counterexample :
    (serviceBus oracle4 true bus3).bus.nextDeviceId = 1 ∧
    (serviceBus oracle4 true bus3).bus.devicesArr.map Device.id = [2] ∧
    ¬ nextDevInv (serviceBus oracle4 true bus3).bus := by
  refine ⟨by decide, by decide, ?_⟩
  unfold nextDevInv
  decide

/-- Claim C4, amended: nextDeviceId is 0 in the initial state, and every
non-detection service pass preserves the invariant that nextDeviceId is 0
or the id of a device in devicesArr; a detection pass that prunes the
device most recently named as next can leave nextDeviceId pointing at a
removed device. -/
theorem C4_amended :
    (∀ busId, (initBus busId).nextDeviceId = 0) ∧
    (∀ (oracle : Nat → List Nat) (bus : Bus),
      nextDevInv bus → nextDevInv (serviceBus oracle false bus).bus) := by
  constructor
  · intro busId
    rfl
  · intro oracle bus h
    unfold serviceBus
    simp only [if_neg Bool.false_ne_true]
    have h0 : nextDevInvSt ⟨bus.devicesArr, bus.nextDeviceId, 0, [], [], []⟩ := h
    have h1 := busLoop_inv oracle false bus.id bus.devicesArr.length 0 _ h0
    exact h1

/-- Witness for C4_amended at a concrete bus and oracle. -/
theorem C4_amended_witness :
    nextDevInv bus2 ∧ nextDevInv (serviceBus oracle2 false bus2).bus :=
  ⟨by unfold nextDevInv; decide,
    C4_amended.2 oracle2 bus2 (by unfold nextDevInv; decide)⟩

/-- The loop runs at most k + s iterations when it completes. -/
theorem serviceLoopAux_le (iter : Nat → Except Bool Bool) :
    ∀ (s k m : Nat) (rep : Bool),
      serviceLoopAux iter k s = (rep, Except.ok m) → m ≤ k + s
  | 0, k, m, rep => by
    intro h
    simp [serviceLoopAux] at h
  | s + 1, k, m, rep => by
    intro h
    rw [serviceLoopAux] at h
    by_cases hs : s = 0
    · simp [hs] at h
    · rw [if_neg hs] at h
      cases hiter : iter k with
      | error rep2 => rw [hiter] at h; simp at h
      | ok rep2 =>
        rw [hiter] at h
        cases rep2 with
        | true =>
          replace h : serviceLoopAux iter (k + 1) s = (rep, Except.ok m) := h
          have := serviceLoopAux_le iter s (k + 1) m rep h
          omega
        | false =>
          replace h : ((false, Except.ok (k + 1)) : Bool × Except SvcErr Nat)
              = (rep, Except.ok m) := h
          have hm : k + 1 = m := by
            have h2 := congrArg Prod.snd h
            simpa using h2
          omega

/-- Claim C5, counterexample: a runaway producer (the repeat flag found set
after every iteration) makes serviceBuses raise the sanity error, but the
call site in onIPCMessage catches and logs it: the broker continues instead
of terminating. -/
theorem C5_counterexample :
    serviceBuses (fun _ => Except.ok true) false ⟨false, false⟩
      = (⟨false, false⟩, some (Except.error SvcErr.sanity)) ∧
    onIPCServiceCall (fun _ => Except.ok true) ⟨false, false⟩
      = CallerOutcome.continueLogged ∧
    CallerOutcome.continueLogged ≠ CallerOutcome.fatal :=
  ⟨rfl, rfl, by decide⟩

/-- Claim C5, amended: one entry into serviceBuses runs the pass over all
buses at most 10 times (the sanity counter starts at 10 and is decremented
before the check, so at most 9 passes complete before the error), and when
the cap is exceeded the raised error is caught and logged by the only
caller, onIPCMessage — the broker is not terminated. -/
theorem C5_amended :
    (∀ (iter : Nat → Except Bool Bool) (st fl : SvcFlags) (m : Nat),
      serviceBuses iter false st = (fl, some (Except.ok m)) → m ≤ 10) ∧
    (∀ (iter : Nat → Except Bool Bool) (st : SvcFlags),
      onIPCServiceCall iter st ≠ CallerOutcome.fatal) := by
  constructor
  · intro iter st fl m h
    unfold serviceBuses at h
    by_cases hp : st.inProgress
    · rw [if_pos hp] at h
      simp at h
    · rw [if_neg hp] at h
      have h2 : (serviceLoopAux iter 0 10).2 = Except.ok m := by
        have h' := congrArg Prod.snd h
        simpa using h'
      have h3 : serviceLoopAux iter 0 10 = ((serviceLoopAux iter 0 10).1, Except.ok m) := by
        rw [← h2]
      have h4 := serviceLoopAux_le iter 10 0 m (serviceLoopAux iter 0 10).1 h3
      omega
  · intro iter st
    unfold onIPCServiceCall
    cases h : (serviceBuses iter false st).2 with
    | none => simp
    | some r =>
      cases r with
      | error e => simp
      | ok m => simp

/-- Witness for C5_amended at a concrete iteration oracle. -/
theorem C5_amended_witness :
    (1 : Nat) ≤ 10 ∧
    onIPCServiceCall (fun _ => Except.ok false) ⟨false, false⟩ ≠ CallerOutcome.fatal :=
  ⟨C5_amended.1 (fun _ => Except.ok false) ⟨false, false⟩ ⟨false, false⟩ 1 rfl,
    C5_amended.2 (fun _ => Except.ok false) ⟨false, false⟩⟩

/-- Claim C10 (confirmed): when serviceBuses actually enters (the guard was
clear), every exit path — normal completion, a pass raising, or the sanity
check raising — leaves inProgress cleared, so later service requests can
start a pass. -/
theorem C10_guard (iter : Nat → Except Bool Bool) (isPoll : Bool) (st : SvcFlags)
    (h : st.inProgress = false) :
    ((serviceBuses iter isPoll st).1).inProgress = false := by
  unfold serviceBuses
  rw [h]
  simp

/-- Witness for C10_guard at a concrete state and oracle, including the
case in which the loop raises the sanity error. -/
theorem C10_guard_witness :
    (⟨false, true⟩ : SvcFlags).inProgress = false ∧
    ((serviceBuses (fun _ => Except.ok true) false ⟨false, true⟩).1).inProgress = false :=
  ⟨rfl, C10_guard (fun _ => Except.ok true) false ⟨false, true⟩ rfl⟩

/-- Claim C6 (confirmed): sub-records of a command-1 frame are processed
strictly in order; if the first i sub-records succeed and sub-record i + 1
is malformed (bad preamble, short read, unknown bus or unknown device),
processing of the rest of the frame aborts while the buses keep everything
the first i sub-records enqueued.  Concretely, for frame6 (count = 3, bad
preamble in sub-record 2) sub-record 1 is enqueued and sub-record 3 is
not. -/
theorem C6_order_abort :
    (∀ (msg : List Nat) (i count pos : Nat) (buses b : List Bus) (p : Nat),
      i < count →
      ipcStepN msg i pos buses = Except.ok (b, p) →
      ipcSubRecordStep msg p b = Except.error () →
      processSubRecords count msg pos buses = Except.error b) ∧
    onIPCMessage frame6 buses0 = ⟨buses6after, false, true⟩ := by
  constructor
  · intro msg i
    induction i with
    | zero =>
      intro count pos buses b p hlt hstep herr
      cases count with
      | zero => omega
      | succ n =>
        have hbp : buses = b ∧ pos = p := by
          simpa [ipcStepN, Prod.ext_iff] using hstep
        rw [← hbp.1, ← hbp.2] at herr
        rw [processSubRecords, herr, hbp.1]
    | succ j ih =>
      intro count pos buses b p hlt hstep herr
      cases count with
      | zero => omega
      | succ n =>
        rw [ipcStepN] at hstep
        cases h1 : ipcSubRecordStep msg pos buses with
        | error e =>
          rw [h1] at hstep
          exact absurd
            (show (Except.error e : Except Unit (List Bus × Nat)) = Except.ok (b, p) from hstep)
            (by simp)
        | ok r =>
          obtain ⟨r1, r2⟩ := r
          rw [h1] at hstep
          replace hstep : ipcStepN msg j r2 r1 = Except.ok (b, p) := by
            simpa [Except.bind] using hstep
          rw [processSubRecords, h1]
          exact ih n r2 r1 b p (by omega) hstep herr
  · rfl

/-- Witness for the general part of C6_order_abort at frame6: the first
sub-record succeeds, the second fails, and the loop stops with exactly the
first enqueued. -/
theorem C6_order_abort_witness :
    (1 : Nat) < 3 ∧
    ipcStepN frame6 1 4 buses0 = Except.ok (buses6after, 13) ∧
    ipcSubRecordStep frame6 13 buses6after = Except.error () ∧
    processSubRecords 3 frame6 4 buses0 = Except.error buses6after :=
  ⟨by decide, rfl, rfl,
    C6_order_abort.1 frame6 1 3 4 buses0 buses6after 13 (by decide) rfl rfl⟩

/-- Claim C7, counterexample: a frame whose first sub-record is enqueued and
whose second sub-record has a bad preamble ends with serviceCalled = false:
the raise jumps to the catch clause before the serviceBuses call. -/
theorem C7_counterexample :
    (onIPCMessage frame7 buses0).serviceCalled = false ∧
    (onIPCMessage frame7 buses0).buses
      = [⟨0, [⟨1, [⟨0, 1, 3, []⟩], none⟩, ⟨2, [], none⟩], 0⟩] := by
  decide

/-- Claim C7, amended: the handler signals the service loop exactly when
the frame header validates and every declared sub-record processes
successfully; any validation failure aborts the frame before the signal. -/
theorem C7_amended (msg : List Nat) (buses : List Bus) :
    (onIPCMessage msg buses).serviceCalled =
      (decide (IPC_MESSAGE_TO_DEVICE_OVERHEAD ≤ msg.length) &&
        (msg.getD 0 0 == IPC_PROTO_VERSION) &&
        (msg.getD 1 0 == SPI_HUB_CMD_MSG_TO_DEVICE) &&
        isOkE (processSubRecords (msg.getD 2 0 + 256 * msg.getD 3 0) msg 4 buses)) := by
  simp only [onIPCMessage]
  split_ifs with h1 h2 h3
  · have h4 : ¬ (IPC_MESSAGE_TO_DEVICE_OVERHEAD ≤ msg.length) := Nat.not_le.mpr h1
    simp [h4]
  · have h4 : ¬ msg[0]?.getD 0 = IPC_PROTO_VERSION := by simpa using h2
    simp [h4]
  · have h4 : ¬ msg[1]?.getD 0 = SPI_HUB_CMD_MSG_TO_DEVICE := by simpa using h3
    simp [h4]
  · have h4 : IPC_MESSAGE_TO_DEVICE_OVERHEAD ≤ msg.length := Nat.not_lt.mp h1
    have h5 : msg[0]?.getD 0 = IPC_PROTO_VERSION := by simpa using not_not.mp h2
    have h6 : msg[1]?.getD 0 = SPI_HUB_CMD_MSG_TO_DEVICE := by simpa using not_not.mp h3
    cases hp : processSubRecords (msg.getD 2 0 + 256 * msg.getD 3 0) msg 4 buses with
    | ok b' => simp [hp, h4, h5, h6, isOkE]
    | error b' => simp [hp, isOkE]

/-- Claim C8 (confirmed): a buffer shorter than 9 bytes decodes to the
MSG_TOO_SHORT error; otherwise, a declared payload length (bytes 7..8
little-endian) exceeding the bytes left after the 9-byte header yields
MESSAGE_TRUNCATED; otherwise the record carries the header fields from
their fixed offsets and a payload exactly when the declared length is
non-zero. -/
theorem C8_decode (buf : List Nat) :
    (buf.length < 9 →
      decodeMessageFromDevice buf =
        ⟨none, none, none, none, none, none, none, some ErrCode.MSG_TOO_SHORT⟩) ∧
    (9 ≤ buf.length →
      buf.length - 9 < buf.getD 7 0 + 256 * buf.getD 8 0 →
      (decodeMessageFromDevice buf).errCode = some ErrCode.MESSAGE_TRUNCATED) ∧
    (9 ≤ buf.length →
      buf.getD 7 0 + 256 * buf.getD 8 0 ≤ buf.length - 9 →
      (decodeMessageFromDevice buf).errCode = none ∧
      (decodeMessageFromDevice buf).deviceId = some (buf.getD 1 0) ∧
      (decodeMessageFromDevice buf).queueCount = some (buf.getD 2 0) ∧
      (decodeMessageFromDevice buf).nextMsgLen = some (buf.getD 3 0 + 256 * buf.getD 4 0) ∧
      (decodeMessageFromDevice buf).cmd = some (buf.getD 5 0) ∧
      (decodeMessageFromDevice buf).channelId = some (buf.getD 6 0) ∧
      (decodeMessageFromDevice buf).msgLen = some (buf.getD 7 0 + 256 * buf.getD 8 0) ∧
      ((decodeMessageFromDevice buf).message.isSome ↔
        buf.getD 7 0 + 256 * buf.getD 8 0 ≠ 0)) := by
  refine ⟨?_, ?_, ?_⟩
  · intro h
    unfold decodeMessageFromDevice
    rw [if_pos (by simpa [SPI_MSG_FROM_DEVICE_OVERHEAD] using h)]
  · intro h9 htr
    unfold decodeMessageFromDevice
    rw [if_neg (by simp only [SPI_MSG_FROM_DEVICE_OVERHEAD]; omega)]
    rw [if_neg (by simp only [SPI_MSG_FROM_DEVICE_OVERHEAD]; omega)]
  · intro h9 hok
    unfold decodeMessageFromDevice
    rw [if_neg (by simp only [SPI_MSG_FROM_DEVICE_OVERHEAD]; omega)]
    rw [if_pos (by simp only [SPI_MSG_FROM_DEVICE_OVERHEAD]; omega)]
    refine ⟨rfl, rfl, rfl, rfl, rfl, rfl, rfl, ?_⟩
    by_cases hm : buf.getD 7 0 + 256 * buf.getD 8 0 ≠ 0
    · simp [hm]
    · simp [not_not.mp hm]

/-- Witness for C8_decode on one buffer per decoding outcome. -/
theorem C8_decode_witness :
    (([0, 1, 0] : List Nat).length < 9 ∧
      decodeMessageFromDevice [0, 1, 0] =
        ⟨none, none, none, none, none, none, none, some ErrCode.MSG_TOO_SHORT⟩) ∧
    (decodeMessageFromDevice [0, 1, 0, 40, 0, 2, 3, 5, 0, 9, 9]).errCode
      = some ErrCode.MESSAGE_TRUNCATED ∧
    (decodeMessageFromDevice [0, 1, 0, 40, 0, 2, 3, 2, 0, 9, 9]).errCode = none :=
  ⟨⟨by decide, (C8_decode [0, 1, 0]).1 (by decide)⟩,
    (C8_decode [0, 1, 0, 40, 0, 2, 3, 5, 0, 9, 9]).2.1 (by decide) (by decide),
    ((C8_decode [0, 1, 0, 40, 0, 2, 3, 2, 0, 9, 9]).2.2 (by decide) (by decide)).1⟩

/-! Buffer lemmas for the encoder (claim C9). -/

theorem length_bufCopy : ∀ (src dst : List Nat) (pos : Nat),
    (bufCopy dst pos src).length = dst.length
  | [], _, _ => rfl
  | b :: rest, dst, pos => by
    rw [bufCopy, length_bufCopy rest, List.length_set]

theorem getD_set_self : ∀ (l : List Nat) (i v d : Nat), i < l.length →
    (l.set i v).getD i d = v
  | [], _, _, _, h => absurd h (Nat.not_lt_zero _)
  | _ :: _, 0, _, _, _ => rfl
  | _ :: t, i + 1, v, d, h => getD_set_self t i v d (by simpa using h)

theorem getD_set_ne : ∀ (l : List Nat) (i j v d : Nat), i ≠ j →
    (l.set i v).getD j d = l.getD j d
  | [], _, _, _, _, _ => rfl
  | _ :: _, 0, 0, _, _, h => absurd rfl h
  | _ :: _, 0, _ + 1, _, _, _ => rfl
  | _ :: _, _ + 1, 0, _, _, _ => rfl
  | _ :: t, i + 1, j + 1, v, d, h =>
    getD_set_ne t i j v d (fun hc => h (by rw [hc]))

theorem getD_replicate_zero : ∀ (k j : Nat), (List.replicate k (0 : Nat)).getD j 0 = 0
  | 0, _ => rfl
  | _ + 1, 0 => rfl
  | k + 1, j + 1 => getD_replicate_zero k j

theorem bufCopy_getD_lt : ∀ (src dst : List Nat) (pos j d : Nat), j < pos →
    (bufCopy dst pos src).getD j d = dst.getD j d
  | [], _, _, _, _, _ => rfl
  | b :: rest, dst, pos, j, d, h => by
    rw [bufCopy, bufCopy_getD_lt rest _ (pos + 1) j d (by omega),
      getD_set_ne dst pos j b d (by omega)]

theorem bufCopy_getD_ge : ∀ (src dst : List Nat) (pos j d : Nat),
    pos + src.length ≤ j →
    (bufCopy dst pos src).getD j d = dst.getD j d
  | [], _, _, _, _, _ => rfl
  | b :: rest, dst, pos, j, d, h => by
    have hlen : pos + rest.length + 1 ≤ j := by
      have h2 : (b :: rest).length = rest.length + 1 := rfl
      omega
    rw [bufCopy, bufCopy_getD_ge rest _ (pos + 1) j d (by omega),
      getD_set_ne dst pos j b d (by omega)]

theorem bufCopy_getD_in : ∀ (src dst : List Nat) (pos i : Nat),
    i < src.length → pos + i < dst.length →
    (bufCopy dst pos src).getD (pos + i) 0 = src.getD i 0
  | [], _, _, _, h, _ => absurd h (Nat.not_lt_zero _)
  | b :: rest, dst, pos, 0, h, h2 => by
    rw [bufCopy]
    rw [show pos + 0 = pos from rfl]
    rw [bufCopy_getD_lt rest _ (pos + 1) pos 0 (by omega)]
    rw [getD_set_self dst pos b 0 (by omega)]
    rfl
  | b :: rest, dst, pos, i + 1, h, h2 => by
    rw [bufCopy]
    have hrec := bufCopy_getD_in rest (dst.set pos b) (pos + 1) i
      (by simpa using h) (by rw [List.length_set]; omega)
    rw [show pos + (i + 1) = (pos + 1) + i by omega]
    exact hrec

theorem encHeaderBuf_length (t n c ch L N : Nat) :
    (encHeaderBuf t n c ch L N).length = N := by
  simp [encHeaderBuf, writeU16LE, writeU8]

theorem encHeaderBuf_getD_lo (t n c ch L N : Nat) (h : 6 ≤ N) :
    (encHeaderBuf t n c ch L N).getD 0 0 = t % 256 ∧
    (encHeaderBuf t n c ch L N).getD 1 0 = n % 256 ∧
    (encHeaderBuf t n c ch L N).getD 2 0 = c % 256 ∧
    (encHeaderBuf t n c ch L N).getD 3 0 = ch % 256 ∧
    (encHeaderBuf t n c ch L N).getD 4 0 = L % 256 ∧
    (encHeaderBuf t n c ch L N).getD 5 0 = L / 256 % 256 := by
  unfold encHeaderBuf writeU16LE writeU8
  refine ⟨?_, ?_, ?_, ?_, ?_, ?_⟩
  · rw [getD_set_ne _ 5 0 _ _ (by omega), getD_set_ne _ 4 0 _ _ (by omega),
      getD_set_ne _ 3 0 _ _ (by omega), getD_set_ne _ 2 0 _ _ (by omega),
      getD_set_ne _ 1 0 _ _ (by omega),
      getD_set_self _ 0 _ _ (by simp only [List.length_set, List.length_replicate]; omega)]
  · rw [getD_set_ne _ 5 1 _ _ (by omega), getD_set_ne _ 4 1 _ _ (by omega),
      getD_set_ne _ 3 1 _ _ (by omega), getD_set_ne _ 2 1 _ _ (by omega),
      getD_set_self _ 1 _ _ (by simp only [List.length_set, List.length_replicate]; omega)]
  · rw [getD_set_ne _ 5 2 _ _ (by omega), getD_set_ne _ 4 2 _ _ (by omega),
      getD_set_ne _ 3 2 _ _ (by omega),
      getD_set_self _ 2 _ _ (by simp only [List.length_set, List.length_replicate]; omega)]
  · rw [getD_set_ne _ 5 3 _ _ (by omega), getD_set_ne _ 4 3 _ _ (by omega),
      getD_set_self _ 3 _ _ (by simp only [List.length_set, List.length_replicate]; omega)]
  · rw [getD_set_ne _ 5 4 _ _ (by omega),
      getD_set_self _ 4 _ _ (by simp only [List.length_set, List.length_replicate]; omega)]
  · rw [getD_set_self _ 5 _ _ (by simp only [List.length_set, List.length_replicate]; omega)]

theorem encHeaderBuf_getD_hi (t n c ch L N : Nat) (j : Nat) (hj : 6 ≤ j) :
    (encHeaderBuf t n c ch L N).getD j 0 = 0 := by
  unfold encHeaderBuf writeU16LE writeU8
  rw [getD_set_ne _ 5 j _ _ (by omega), getD_set_ne _ 4 j _ _ (by omega),
    getD_set_ne _ 3 j _ _ (by omega), getD_set_ne _ 2 j _ _ (by omega),
    getD_set_ne _ 1 j _ _ (by omega), getD_set_ne _ 0 j _ _ (by omega),
    getD_replicate_zero]

/-- Claim C9 (confirmed): the encoder produces a buffer of length
max(6 + len(payload), e > 0 ? 9 + e : 0) with target id at byte 0, next id
at byte 1, command at byte 2, channel at byte 3, the payload length
little-endian at bytes 4..5, the payload from byte 6, and every remaining
byte zero. -/
theorem C9_encode (t n c ch e : Nat) (p : List Nat)
    (ht : t < 256) (hn : n < 256) (hc : c < 256) (hch : ch < 256)
    (hp : p.length < 65536) :
    (encodeMessageToDevice ⟨t, n, c, ch, some p, e⟩).length
        = max (6 + p.length) (if 0 < e then 9 + e else 0) ∧
    (encodeMessageToDevice ⟨t, n, c, ch, some p, e⟩).getD 0 0 = t ∧
    (encodeMessageToDevice ⟨t, n, c, ch, some p, e⟩).getD 1 0 = n ∧
    (encodeMessageToDevice ⟨t, n, c, ch, some p, e⟩).getD 2 0 = c ∧
    (encodeMessageToDevice ⟨t, n, c, ch, some p, e⟩).getD 3 0 = ch ∧
    (encodeMessageToDevice ⟨t, n, c, ch, some p, e⟩).getD 4 0
        + 256 * (encodeMessageToDevice ⟨t, n, c, ch, some p, e⟩).getD 5 0 = p.length ∧
    (∀ i, i < p.length →
      (encodeMessageToDevice ⟨t, n, c, ch, some p, e⟩).getD (6 + i) 0 = p.getD i 0) ∧
    (∀ i, 6 + p.length ≤ i →
      (encodeMessageToDevice ⟨t, n, c, ch, some p, e⟩).getD i 0 = 0) := by
  set N := max (p.length + 6) (if e ≠ 0 then e + 9 else 0) with hN
  have hN6 : p.length + 6 ≤ N := le_max_left ..
  have hE : encodeMessageToDevice ⟨t, n, c, ch, some p, e⟩
      = bufCopy (encHeaderBuf t n c ch p.length N) 6 p := by
    rw [hN]
    rfl
  have hBlen : (encHeaderBuf t n c ch p.length N).length = N := encHeaderBuf_length ..
  have hlo := encHeaderBuf_getD_lo t n c ch p.length N (by omega)
  refine ⟨?_, ?_, ?_, ?_, ?_, ?_, ?_, ?_⟩
  · rw [hE, length_bufCopy, hBlen, hN]
    rcases Nat.eq_zero_or_pos e with he | he
    · simp [he]
      omega
    · rw [if_pos (by omega : e ≠ 0), if_pos he]
      omega
  · rw [hE, bufCopy_getD_lt p _ 6 0 0 (by omega), hlo.1]
    exact Nat.mod_eq_of_lt ht
  · rw [hE, bufCopy_getD_lt p _ 6 1 0 (by omega), hlo.2.1]
    exact Nat.mod_eq_of_lt hn
  · rw [hE, bufCopy_getD_lt p _ 6 2 0 (by omega), hlo.2.2.1]
    exact Nat.mod_eq_of_lt hc
  · rw [hE, bufCopy_getD_lt p _ 6 3 0 (by omega), hlo.2.2.2.1]
    exact Nat.mod_eq_of_lt hch
  · rw [hE, bufCopy_getD_lt p _ 6 4 0 (by omega), bufCopy_getD_lt p _ 6 5 0 (by omega),
      hlo.2.2.2.2.1, hlo.2.2.2.2.2]
    have hdiv : p.length / 256 < 256 := by omega
    rw [Nat.mod_eq_of_lt hdiv]
    omega
  · intro i hi
    rw [hE, bufCopy_getD_in p _ 6 i hi (by rw [hBlen]; omega)]
  · intro i hi
    rw [hE, bufCopy_getD_ge p _ 6 i 0 (by omega),
      encHeaderBuf_getD_hi t n c ch p.length N i (by omega)]

/-- Witness for C9_encode at a concrete request. -/
theorem C9_encode_witness :
    (encodeMessageToDevice ⟨1, 2, 1, 4, some [104, 105], 40⟩).length
      = max (6 + ([104, 105] : List Nat).length) (if 0 < 40 then 9 + 40 else 0) :=
  (C9_encode 1 2 1 4 40 [104, 105] (by decide) (by decide) (by decide) (by decide)
    (by decide)).1

end SpiHub
